import Mathlib

/-!
Verification of the deep-organizer tool layer (`main.py`).

The four tool functions (`get_file_list`, `create_folder`, `move_file`,
`read_file`) are embedded shallowly.  The filesystem is a finite map from
absolute POSIX paths (lists of components) to nodes (directories, or files
whose content is a list of characters; `none` content marks a file that is
not decodable as UTF-8 text).  `pathlib` path arithmetic keeps `..` and
drops `.` and empty components; the operating system resolves `..` at the
point of each filesystem call, which `resolvePath` models (symlinks are not
modelled).  Python exceptions are modelled by `Except PyErr`: each tool is a
`..._body` function (the `try` block, in which primitives can fail) wrapped
by a total function that renders any escaping fault as the tool's
`except`-clause message.
-/

set_option maxRecDepth 8000

abbrev AbsPath := List String

inductive Node where
  | dir : Node
  | file (content : Option (List Char)) : Node
deriving DecidableEq

structure FS where
  nodes : List (AbsPath × Node)
deriving DecidableEq

/-- Association-list lookup on filesystem nodes (first match wins). -/
def alookup : List (AbsPath × Node) → AbsPath → Option Node
  | [], _ => none
  | e :: t, p => if e.1 = p then some e.2 else alookup t p

/-- Remove every node stored at the given key. -/
def aerase : List (AbsPath × Node) → AbsPath → List (AbsPath × Node)
  | [], _ => []
  | e :: t, p => if e.1 = p then aerase t p else e :: aerase t p

/-- Number of nodes stored at the given key. -/
def keyCount : List (AbsPath × Node) → AbsPath → Nat
  | [], _ => 0
  | e :: t, p => (if e.1 = p then 1 else 0) + keyCount t p

/-- Split a character list at every `/`, as Python splits a path string. -/
def pySplitAux : List Char → List Char → List String
  | [], acc => [String.mk acc.reverse]
  | c :: rest, acc =>
    if c = '/' then String.mk acc.reverse :: pySplitAux rest []
    else pySplitAux rest (c :: acc)

/-- Python's whitespace strip, as used by `str.strip()` on names. -/
def pyStrip (s : String) : String :=
  String.mk (((s.data.dropWhile Char.isWhitespace).reverse.dropWhile Char.isWhitespace).reverse)

/-- Whether the path string is absolute (starts with the separator). -/
def startsWithSlash (s : String) : Bool :=
  match s.data with
  | '/' :: _ => true
  | _ => false

/-- Path components of a string under `pathlib` rules: split on the
separator, drop empty components and `.` components, keep `..`. -/
def splitComps (s : String) : List String :=
  (pySplitAux s.data []).filter (fun c => decide (c ≠ "" ∧ c ≠ "."))

/-- Operating-system resolution of a path at the point of a filesystem
call: `.` is dropped and `..` removes the preceding component (the parent
of the filesystem root is the root itself). -/
def resolvePath (p : AbsPath) : AbsPath :=
  p.foldl (fun acc c => if c = "." then acc else if c = ".." then acc.dropLast else acc ++ [c]) []

/-- The `/` operator of `pathlib`: joining an absolute right operand
replaces the base. -/
def pyJoin (base : AbsPath) (s : String) : AbsPath :=
  if startsWithSlash s then splitComps s else base ++ splitComps s

/-- Rendering of a `Path` object as a string, as in the f-string messages. -/
def pathStr (p : AbsPath) : String :=
  "/" ++ String.intercalate "/" p

def FS.find (fs : FS) (p : AbsPath) : Option Node :=
  alookup fs.nodes p

/-- Find the node an OS call acting on raw path `p` reaches. -/
def FS.lookup (fs : FS) (p : AbsPath) : Option Node :=
  fs.find (resolvePath p)

/-- Erase a node at an already resolved key. -/
def FS.erase (fs : FS) (p : AbsPath) : FS :=
  ⟨aerase fs.nodes p⟩

/-- Store a node at an already resolved key, replacing any previous one. -/
def FS.set (fs : FS) (p : AbsPath) (n : Node) : FS :=
  ⟨(p, n) :: aerase fs.nodes p⟩

/-- Names of the direct children of directory `p`, in storage order
(directory-enumeration order is unspecified in the source). -/
def FS.children (fs : FS) (p : AbsPath) : List String :=
  fs.nodes.filterMap
    (fun e => if e.1 ≠ [] ∧ e.1.dropLast = resolvePath p then e.1.getLast? else none)

inductive PyErr where
  | fileExistsError (msg : String)
  | fileNotFoundError (msg : String)
  | notADirectoryError (msg : String)
  | isADirectoryError (msg : String)
  | unicodeDecodeError (msg : String)
  | shutilError (msg : String)
deriving DecidableEq

/-- The `str(e)` form of an exception, as interpolated by the handlers. -/
def PyErr.str : PyErr → String
  | .fileExistsError m => m
  | .fileNotFoundError m => m
  | .notADirectoryError m => m
  | .isADirectoryError m => m
  | .unicodeDecodeError m => m
  | .shutilError m => m

/-- Python's substring test `sub in s`: `sub` occurs contiguously in `s`. -/
def strContains (s sub : String) : Bool :=
  decide (sub.data <:+: s.data)

/-- Model of `Path.iterdir()`: names of direct children, or a raised error
when the directory is missing or not a directory. -/
def os_iterdir (fs : FS) (p : AbsPath) : Except PyErr (List String) :=
  match fs.lookup p with
  | some Node.dir => .ok (fs.children p)
  | some (Node.file _) =>
      .error (.notADirectoryError ("[Errno 20] Not a directory: '" ++ pathStr p ++ "'"))
  | none =>
      .error (.fileNotFoundError ("[Errno 2] No such file or directory: '" ++ pathStr p ++ "'"))

/-- Model of `os.makedirs`: walk the prefixes of the (resolved) target,
creating each missing directory; fail when a prefix is a regular file. -/
def makedirsAux : FS → AbsPath → List String → Except PyErr FS
  | fs, _, [] => .ok fs
  | fs, done, c :: rest =>
    let q := done ++ [c]
    match fs.find q with
    | some Node.dir => makedirsAux fs q rest
    | some (Node.file _) =>
        .error (.notADirectoryError ("[Errno 20] Not a directory: '" ++ pathStr q ++ "'"))
    | none => makedirsAux (fs.set q Node.dir) q rest

/-- Model of `Path.mkdir(parents=True, exist_ok=True)`: succeed silently on
an existing directory, raise `FileExistsError` when a file occupies the
path, otherwise create the directory and any missing parents. -/
def os_mkdir (fs : FS) (p : AbsPath) : Except PyErr FS :=
  match fs.find (resolvePath p) with
  | some Node.dir => .ok fs
  | some (Node.file _) =>
      .error (.fileExistsError ("[Errno 17] File exists: '" ++ pathStr (resolvePath p) ++ "'"))
  | none => makedirsAux fs [] (resolvePath p)

/-- Model of `os.rename`: the source must exist, the destination's parent
must exist and be a directory, and an existing destination file is
replaced; renaming onto an existing directory raises. -/
def os_rename (fs : FS) (src dst : AbsPath) : Except PyErr FS :=
  let ns := resolvePath src
  let nd := resolvePath dst
  match fs.find ns with
  | none =>
      .error (.fileNotFoundError ("[Errno 2] No such file or directory: '" ++ pathStr ns ++ "'"))
  | some node =>
    match fs.find nd.dropLast with
    | some Node.dir =>
      match fs.find nd with
      | some Node.dir =>
          .error (.isADirectoryError ("[Errno 21] Is a directory: '" ++ pathStr nd ++ "'"))
      | _ => .ok ((fs.erase ns).set nd node)
    | some (Node.file _) =>
        .error (.notADirectoryError ("[Errno 20] Not a directory: '" ++ pathStr nd.dropLast ++ "'"))
    | none =>
        .error (.fileNotFoundError ("[Errno 2] No such file or directory: '" ++ pathStr nd.dropLast ++ "'"))

/-- Model of `shutil.move`: when the destination is an existing directory
the source is moved into it (failing if the landing name is taken),
otherwise the destination path is renamed onto directly. -/
def shutil_move (fs : FS) (src dst : AbsPath) : Except PyErr FS :=
  match fs.lookup dst with
  | some Node.dir =>
    let rd := dst ++ [(src.getLast?).getD ""]
    match fs.lookup rd with
    | some _ => .error (.shutilError ("Destination path '" ++ pathStr rd ++ "' already exists"))
    | none => os_rename fs src rd
  | _ => os_rename fs src dst

/-- Model of `open(path, encoding="utf-8").read(n)`: up to `n` characters
of a decodable file, `UnicodeDecodeError` on a non-text file. -/
def py_open_read (fs : FS) (p : AbsPath) (n : Nat) : Except PyErr (List Char) :=
  match fs.lookup p with
  | none =>
      .error (.fileNotFoundError ("[Errno 2] No such file or directory: '" ++ pathStr p ++ "'"))
  | some Node.dir =>
      .error (.isADirectoryError ("[Errno 21] Is a directory: '" ++ pathStr p ++ "'"))
  | some (Node.file none) =>
      .error (.unicodeDecodeError "'utf-8' codec can't decode byte")
  | some (Node.file (some content)) => .ok (content.take n)

def path_exists (fs : FS) (p : AbsPath) : Bool :=
  (fs.lookup p).isSome

def path_is_file (fs : FS) (p : AbsPath) : Bool :=
  match fs.lookup p with
  | some (Node.file _) => true
  | _ => false

def EXCLUDED_FILES : List String := [".env", "main.py", ".gitignore", "requirements.txt"]

def EXCLUDED_FOLDERS : List String := ["venv", "__pycache__", ".git"]

def MAX_FILE_READ_SIZE : Nat := 1000

/-- The literal appended by `read_file` when `len(content)` reaches the
limit (`f-string` with `MAX_FILE_READ_SIZE = 1000`). -/
def truncationMarker : String := "\n... (truncated at 1000 characters)"

/-- The `try` block of `get_file_list`. -/
def get_file_list_body (root : AbsPath) (fs : FS) : Except PyErr (List String) :=
  match os_iterdir fs root with
  | .ok all_items =>
      .ok (all_items.filter (fun i => decide (i ∉ EXCLUDED_FILES ∧ i ∉ EXCLUDED_FOLDERS)))
  | .error e => .error e

def get_file_list (root : AbsPath) (fs : FS) : List String :=
  match get_file_list_body root fs with
  | .ok l => l
  | .error e => ["Error listing files: " ++ e.str]

/-- The `try` block of `create_folder`. -/
def create_folder_body (root : AbsPath) (folder_name : String) (fs : FS) :
    Except PyErr (String × FS) :=
  if folder_name = "" ∨ pyStrip folder_name = "" then
    .ok ("Error: Folder name cannot be empty.", fs)
  else if strContains folder_name ".." || strContains folder_name "/" ||
      strContains folder_name "\\" then
    .ok ("Error: Invalid folder name. Avoid path separators.", fs)
  else
    let path := pyJoin root folder_name
    match os_mkdir fs path with
    | .ok fs2 =>
        .ok ("Folder '" ++ folder_name ++ "' created successfully at " ++ pathStr path, fs2)
    | .error e => .error e

def create_folder (root : AbsPath) (folder_name : String) (fs : FS) : String × FS :=
  match create_folder_body root folder_name fs with
  | .ok r => r
  | .error e => ("Error creating folder '" ++ folder_name ++ "': " ++ e.str, fs)

/-- The `try` block of `move_file`. -/
def move_file_body (root : AbsPath) (file_name dest_folder : String) (fs : FS) :
    Except PyErr (String × FS) :=
  if file_name ∈ EXCLUDED_FILES then
    .ok ("Error: Cannot move protected file '" ++ file_name ++ "'.", fs)
  else
    let src_path := pyJoin root file_name
    let dest_path := pyJoin (pyJoin root dest_folder) file_name
    if !(path_exists fs src_path) then
      .ok ("Error: Source file '" ++ file_name ++ "' does not exist.", fs)
    else if !(path_is_file fs src_path) then
      .ok ("Error: '" ++ file_name ++ "' is not a file.", fs)
    else if !(path_exists fs dest_path.dropLast) then
      .ok ("Error: Destination folder '" ++ dest_folder ++ "' does not exist.", fs)
    else
      match shutil_move fs src_path dest_path with
      | .ok fs2 =>
          .ok ("File '" ++ file_name ++ "' moved to '" ++ dest_folder ++ "' successfully.", fs2)
      | .error e => .error e

def move_file (root : AbsPath) (file_name dest_folder : String) (fs : FS) : String × FS :=
  match move_file_body root file_name dest_folder fs with
  | .ok r => r
  | .error e => ("Error moving file '" ++ file_name ++ "': " ++ e.str, fs)

/-- The `try` block of `read_file`; the inner `try` catches only
`UnicodeDecodeError`, every other fault escapes to the outer handler. -/
def read_file_body (root : AbsPath) (file_name : String) (fs : FS) : Except PyErr String :=
  if file_name ∈ EXCLUDED_FILES then
    .ok ("Error: Cannot read protected file '" ++ file_name ++ "'.")
  else
    let path := pyJoin root file_name
    if !(path_exists fs path) then
      .ok ("Error: File '" ++ file_name ++ "' does not exist.")
    else if !(path_is_file fs path) then
      .ok ("Error: '" ++ file_name ++ "' is not a file.")
    else
      match py_open_read fs path MAX_FILE_READ_SIZE with
      | .ok content =>
          .ok (String.mk
            (if content.length = MAX_FILE_READ_SIZE then content ++ truncationMarker.data
             else content))
      | .error (PyErr.unicodeDecodeError _) =>
          .ok ("Error: '" ++ file_name ++ "' appears to be a binary file and cannot be read as text.")
      | .error e => .error e

def read_file (root : AbsPath) (file_name : String) (fs : FS) : String :=
  match read_file_body root file_name fs with
  | .ok m => m
  | .error e => "Error reading file '" ++ file_name ++ "': " ++ e.str

/-- Modelled from the spec: the repository module `deep_organizer/core.py`
(class `FileOrganizer`, which owns the dry-run flag) is not under `src/`;
only its GUI caller is.  Per the spec, in dry-run mode `create_folder`
"validates but does not create, returning a message that states the action
was simulated". -/
def create_folder_dryrun (root : AbsPath) (folder_name : String) (fs : FS) : String × FS :=
  if folder_name = "" ∨ pyStrip folder_name = "" then
    ("Error: Folder name cannot be empty.", fs)
  else if strContains folder_name ".." || strContains folder_name "/" ||
      strContains folder_name "\\" then
    ("Error: Invalid folder name. Avoid path separators.", fs)
  else
    ("[dry run] Folder '" ++ folder_name ++ "' would be created at " ++
      pathStr (pyJoin root folder_name) ++ ".", fs)

/-- Modelled from the spec: dry-run `move_file` of the missing
`deep_organizer/core.py` — it performs the same rejection checks and then
"returns a simulated-success message without touching the filesystem". -/
def move_file_dryrun (root : AbsPath) (file_name dest_folder : String) (fs : FS) : String × FS :=
  if file_name ∈ EXCLUDED_FILES then
    ("Error: Cannot move protected file '" ++ file_name ++ "'.", fs)
  else
    let src_path := pyJoin root file_name
    let dest_path := pyJoin (pyJoin root dest_folder) file_name
    if !(path_exists fs src_path) then
      ("Error: Source file '" ++ file_name ++ "' does not exist.", fs)
    else if !(path_is_file fs src_path) then
      ("Error: '" ++ file_name ++ "' is not a file.", fs)
    else if !(path_exists fs dest_path.dropLast) then
      ("Error: Destination folder '" ++ dest_folder ++ "' does not exist.", fs)
    else
      ("[dry run] File '" ++ file_name ++ "' would be moved to '" ++ dest_folder ++ "'.", fs)

lemma alookup_aerase_self (l : List (AbsPath × Node)) (p : AbsPath) :
    alookup (aerase l p) p = none := by
  induction l with
  | nil => rfl
  | cons e t ih =>
    by_cases h : e.1 = p <;> simp [aerase, alookup, h, ih]

lemma alookup_aerase_ne (l : List (AbsPath × Node)) (p q : AbsPath) (h : q ≠ p) :
    alookup (aerase l p) q = alookup l q := by
  induction l with
  | nil => rfl
  | cons e t ih =>
    by_cases he : e.1 = p
    · have hne : e.1 ≠ q := by rw [he]; exact Ne.symm h
      rw [aerase, if_pos he, ih, alookup, if_neg hne]
    · by_cases heq : e.1 = q <;>
        simp [aerase, alookup, he, heq, ih, h]

lemma keyCount_aerase_self (l : List (AbsPath × Node)) (p : AbsPath) :
    keyCount (aerase l p) p = 0 := by
  induction l with
  | nil => rfl
  | cons e t ih =>
    by_cases h : e.1 = p <;> simp [aerase, keyCount, h, ih]

lemma find_set_self (fs : FS) (p : AbsPath) (n : Node) : (fs.set p n).find p = some n := by
  simp [FS.set, FS.find, alookup]

lemma find_set_ne (fs : FS) (p q : AbsPath) (n : Node) (h : q ≠ p) :
    (fs.set p n).find q = fs.find q := by
  have hp : p ≠ q := fun hq => h hq.symm
  simp [FS.set, FS.find, alookup, hp, alookup_aerase_ne _ _ _ h]

/-- A plain file or folder name: a single path component, not a parent
reference, not absolute. -/
def simpleName (s : String) : Prop :=
  splitComps s = [s] ∧ s ≠ ".." ∧ startsWithSlash s = false

instance (s : String) : Decidable (simpleName s) := by
  unfold simpleName
  infer_instance

lemma pyJoin_simple (base : AbsPath) (s : String) (h : simpleName s) :
    pyJoin base s = base ++ [s] := by
  simp [pyJoin, h.2.2, h.1]

lemma resolvePath_append (p q : AbsPath) :
    resolvePath (p ++ q) =
      q.foldl (fun acc c => if c = "." then acc else if c = ".." then acc.dropLast else acc ++ [c])
        (resolvePath p) := by
  simp [resolvePath, List.foldl_append]

lemma simpleName_ne_dot (s : String) (h : simpleName s) : s ≠ "." := by
  intro he
  subst he
  exact absurd h.1 (by decide)

lemma resolvePath_simple_append (p : AbsPath) (s : String)
    (hp : resolvePath p = p) (h : simpleName s) :
    resolvePath (p ++ [s]) = p ++ [s] := by
  rw [resolvePath_append, hp]
  simp [simpleName_ne_dot s h, h.2.1]

def fsC1 : FS :=
  ⟨[([], Node.dir), (["w"], Node.dir), (["w", "a.txt"], Node.file (some ['h', 'i'])),
    (["secret.txt"], Node.file (some ['s']))]⟩

/-- C1: the claim says no tool invocation ever reads, creates, or moves
anything outside the root directory.  The code violates it: `move_file`
and `read_file` never validate their name arguments against traversal, so
`move_file("a.txt", "..")` moves the file to the parent of the root and
reports success, and `read_file("../secret.txt")` reads a file outside the
root. -/
theorem C1_code_bug_path_escape :
    (move_file ["w"] "a.txt" ".." fsC1).1 = "File 'a.txt' moved to '..' successfully." ∧
    (move_file ["w"] "a.txt" ".." fsC1).2.find ["a.txt"] = some (Node.file (some ['h', 'i'])) ∧
    (move_file ["w"] "a.txt" ".." fsC1).2.find ["w", "a.txt"] = none ∧
    List.isPrefixOf ["w"] ["a.txt"] = false ∧
    read_file ["w"] "../secret.txt" fsC1 = "s" ∧
    List.isPrefixOf ["w"] (resolvePath (pyJoin ["w"] "../secret.txt")) = false := by
  refine ⟨by decide, by decide, by decide, by decide, by decide, by decide⟩

def fsC2 : FS :=
  ⟨[([], Node.dir), (["w"], Node.dir), (["w", "venv"], Node.file (some ['h', 'i'])),
    (["w", "Docs"], Node.dir)]⟩

/-- C2 counterexample: `venv` is in the ExclusionSet (it is in
`EXCLUDED_FOLDERS`), yet `read_file` returns the content of a regular file
named `venv` instead of a Protected error, and `move_file` moves it,
mutating the filesystem — the protected-name check consults only
`EXCLUDED_FILES`. -/
theorem C2_counterexample_excluded_folder_name :
    "venv" ∈ EXCLUDED_FOLDERS ∧
    read_file ["w"] "venv" fsC2 = "hi" ∧
    read_file ["w"] "venv" fsC2 ≠ "Error: Cannot read protected file 'venv'." ∧
    (move_file ["w"] "venv" "Docs" fsC2).1 = "File 'venv' moved to 'Docs' successfully." ∧
    (move_file ["w"] "venv" "Docs" fsC2).2 ≠ fsC2 := by
  refine ⟨by decide, by decide, by decide, by decide, by decide⟩

/-- C2 amended: for every name in `excludedFiles` (not the full union with
`excludedFolders`), `read_file` and `move_file` return the protected-file
error and perform no filesystem mutation. -/
theorem C2_protected_file_names (root : AbsPath) (name dest : String) (fs : FS)
    (h : name ∈ EXCLUDED_FILES) :
    read_file root name fs = "Error: Cannot read protected file '" ++ name ++ "'." ∧
    move_file root name dest fs = ("Error: Cannot move protected file '" ++ name ++ "'.", fs) := by
  constructor
  · simp [read_file, read_file_body, h]
  · simp [move_file, move_file_body, h]

/-- C2 witness: the protected-name rejection at a concrete input. -/
theorem C2_protected_file_names_witness :
    read_file ["w"] ".env" fsC2 = "Error: Cannot read protected file '.env'." ∧
    move_file ["w"] ".env" "Docs" fsC2 =
      ("Error: Cannot move protected file '.env'.", fsC2) :=
  C2_protected_file_names ["w"] ".env" "Docs" fsC2 (by decide)

/-- C5: every empty, whitespace-only, separator-containing or
parent-referencing folder name is rejected by `create_folder` with an
error message, and the filesystem is untouched. -/
theorem C5_create_folder_rejects_invalid (root : AbsPath) (name : String) (fs : FS)
    (h : pyStrip name = "" ∨ strContains name ".." = true ∨ strContains name "/" = true ∨
      strContains name "\\" = true) :
    ((create_folder root name fs).1 = "Error: Folder name cannot be empty." ∨
      (create_folder root name fs).1 = "Error: Invalid folder name. Avoid path separators.") ∧
    (create_folder root name fs).2 = fs := by
  by_cases h1 : name = "" ∨ pyStrip name = ""
  · constructor
    · left
      simp [create_folder, create_folder_body, h1]
    · simp [create_folder, create_folder_body, h1]
  · have h2 : (strContains name ".." || strContains name "/" || strContains name "\\") = true := by
      rcases h with h | h | h | h
      · exact absurd (Or.inr h) h1
      all_goals simp [h]
    constructor
    · right
      simp [create_folder, create_folder_body, h1, h2]
    · simp [create_folder, create_folder_body, h1, h2]

/-- C5 witness: rejection of a traversal name and a whitespace name at
concrete inputs. -/
theorem C5_create_folder_rejects_invalid_witness :
    ((create_folder ["w"] "../evil" fsC1).1 = "Error: Folder name cannot be empty." ∨
      (create_folder ["w"] "../evil" fsC1).1 = "Error: Invalid folder name. Avoid path separators.") ∧
    (create_folder ["w"] "../evil" fsC1).2 = fsC1 :=
  C5_create_folder_rejects_invalid ["w"] "../evil" fsC1 (Or.inr (Or.inl (by decide)))

/-- C9: every fault raised by an underlying filesystem primitive inside a
tool's `try` block is converted at the tool boundary into a returned error
outcome (a string, with the filesystem state unchanged for the mutating
tools); no fault value crosses the boundary. -/
theorem C9_faults_become_outcomes (root : AbsPath) (name dest : String) (fs : FS) (e : PyErr) :
    (get_file_list_body root fs = .error e →
      get_file_list root fs = ["Error listing files: " ++ e.str]) ∧
    (create_folder_body root name fs = .error e →
      create_folder root name fs = ("Error creating folder '" ++ name ++ "': " ++ e.str, fs)) ∧
    (move_file_body root name dest fs = .error e →
      move_file root name dest fs = ("Error moving file '" ++ name ++ "': " ++ e.str, fs)) ∧
    (read_file_body root name fs = .error e →
      read_file root name fs = "Error reading file '" ++ name ++ "': " ++ e.str) := by
  refine ⟨fun h => ?_, fun h => ?_, fun h => ?_, fun h => ?_⟩
  · simp [get_file_list, h]
  · simp [create_folder, h]
  · simp [move_file, h]
  · simp [read_file, h]

/-- C9 witness: a missing root makes the enumeration primitive fail, and
`get_file_list` returns the fault as a listing-error outcome. -/
theorem C9_faults_become_outcomes_witness :
    get_file_list ["w"] (FS.mk []) =
      ["Error listing files: " ++
        (PyErr.fileNotFoundError "[Errno 2] No such file or directory: '/w'").str] :=
  (C9_faults_become_outcomes ["w"] "x" "d" (FS.mk [])
    (PyErr.fileNotFoundError "[Errno 2] No such file or directory: '/w'")).1 rfl

def bigContent : List Char := List.replicate 1000 'a'

def fsC3 : FS :=
  ⟨[([], Node.dir), (["w"], Node.dir), (["w", "big.txt"], Node.file (some bigContent))]⟩

/-- Evaluation of `read_file` on a readable text file: the tool returns
the first `MAX_FILE_READ_SIZE` characters, with the marker appended when
the read filled the limit. -/
lemma read_file_text_eval (root : AbsPath) (name : String) (fs : FS) (content : List Char)
    (hn : name ∉ EXCLUDED_FILES)
    (hf : fs.lookup (pyJoin root name) = some (Node.file (some content))) :
    read_file root name fs =
      String.mk (if (content.take MAX_FILE_READ_SIZE).length = MAX_FILE_READ_SIZE then
        content.take MAX_FILE_READ_SIZE ++ truncationMarker.data
        else content.take MAX_FILE_READ_SIZE) := by
  simp [read_file, read_file_body, hn, path_exists, path_is_file, py_open_read, hf]

/-- C3 counterexample: a readable text file of exactly 1000 characters is
not truncated — the whole content is returned — yet `read_file` appends
the truncation marker, because the code tests `len(content) == 1000` on
the read result.  A caller deciding from the string alone gets a false
positive. -/
theorem C3_counterexample_exact_limit :
    bigContent.length = MAX_FILE_READ_SIZE ∧
    bigContent.take MAX_FILE_READ_SIZE = bigContent ∧
    read_file ["w"] "big.txt" fsC3 = String.mk (bigContent ++ truncationMarker.data) ∧
    truncationMarker.data <:+ (read_file ["w"] "big.txt" fsC3).data := by
  have ht : bigContent.take MAX_FILE_READ_SIZE = bigContent := by
    simp [bigContent, MAX_FILE_READ_SIZE]
  have hl : bigContent.length = MAX_FILE_READ_SIZE := by
    simp [bigContent, MAX_FILE_READ_SIZE]
  have heq : read_file ["w"] "big.txt" fsC3 = String.mk (bigContent ++ truncationMarker.data) := by
    rw [read_file_text_eval ["w"] "big.txt" fsC3 bigContent (by decide) rfl, ht, if_pos hl]
  refine ⟨hl, ht, heq, ?_⟩
  rw [heq]
  exact List.suffix_append _ _

/-- C3 amended: `read_file` returns at most `MAX_FILE_READ_SIZE`
characters of content, and the marker is appended exactly when at least
`MAX_FILE_READ_SIZE` characters were read — so truncation is never
silent, but a file of exactly the limit also receives the marker. -/
theorem C3_truncation_marker_semantics (root : AbsPath) (name : String) (fs : FS)
    (content : List Char)
    (hn : name ∉ EXCLUDED_FILES)
    (hf : fs.lookup (pyJoin root name) = some (Node.file (some content))) :
    (read_file root name fs).data =
      content.take MAX_FILE_READ_SIZE ++
        (if MAX_FILE_READ_SIZE ≤ content.length then truncationMarker.data else []) ∧
    (content.take MAX_FILE_READ_SIZE).length ≤ MAX_FILE_READ_SIZE ∧
    (MAX_FILE_READ_SIZE < content.length →
      truncationMarker.data <:+ (read_file root name fs).data) := by
  have hbody := read_file_text_eval root name fs content hn hf
  have hlen : (content.take MAX_FILE_READ_SIZE).length = min MAX_FILE_READ_SIZE content.length :=
    List.length_take _ _
  refine ⟨?_, ?_, ?_⟩
  · rw [hbody]
    by_cases hl : MAX_FILE_READ_SIZE ≤ content.length
    · rw [if_pos hl, if_pos (by rw [hlen]; exact Nat.min_eq_left hl)]
    · rw [if_neg hl, if_neg (by rw [hlen]; omega), List.append_nil]
  · rw [hlen]; exact Nat.min_le_left _ _
  · intro hl
    rw [hbody, if_pos (by rw [hlen]; exact Nat.min_eq_left (Nat.le_of_lt hl))]
    exact List.suffix_append _ _

def hugeContent : List Char := List.replicate 1500 'b'

def fsC3w : FS :=
  ⟨[([], Node.dir), (["w"], Node.dir), (["w", "huge.txt"], Node.file (some hugeContent))]⟩

/-- C3 witness: the amended truncation semantics at a concrete 1500
character file. -/
theorem C3_truncation_marker_semantics_witness :
    (read_file ["w"] "huge.txt" fsC3w).data =
      hugeContent.take MAX_FILE_READ_SIZE ++
        (if MAX_FILE_READ_SIZE ≤ hugeContent.length then truncationMarker.data else []) ∧
    (hugeContent.take MAX_FILE_READ_SIZE).length ≤ MAX_FILE_READ_SIZE ∧
    (MAX_FILE_READ_SIZE < hugeContent.length →
      truncationMarker.data <:+ (read_file ["w"] "huge.txt" fsC3w).data) :=
  C3_truncation_marker_semantics ["w"] "huge.txt" fsC3w hugeContent (by decide) rfl

/-- C4: in dry-run mode (modelled from the spec, the owning module is not
under src/) neither tool mutates the filesystem, and on inputs passing the
checks each returns a message describing the simulated action. -/
theorem C4_dryrun_simulated_no_mutation (root : AbsPath) (name dest : String) (fs : FS) :
    (create_folder_dryrun root name fs).2 = fs ∧
    (move_file_dryrun root name dest fs).2 = fs ∧
    (¬(name = "" ∨ pyStrip name = "") →
      (strContains name ".." || strContains name "/" || strContains name "\\") = false →
      (create_folder_dryrun root name fs).1 =
        "[dry run] Folder '" ++ name ++ "' would be created at " ++
          pathStr (pyJoin root name) ++ ".") ∧
    (name ∉ EXCLUDED_FILES →
      path_exists fs (pyJoin root name) = true →
      path_is_file fs (pyJoin root name) = true →
      path_exists fs (pyJoin (pyJoin root dest) name).dropLast = true →
      (move_file_dryrun root name dest fs).1 =
        "[dry run] File '" ++ name ++ "' would be moved to '" ++ dest ++ "'.") := by
  refine ⟨?_, ?_, ?_, ?_⟩
  · unfold create_folder_dryrun
    split
    · rfl
    · split
      · rfl
      · rfl
  · unfold move_file_dryrun
    dsimp only
    split
    · rfl
    · split
      · rfl
      · split
        · rfl
        · split
          · rfl
          · rfl
  · intro h1 h2
    simp [create_folder_dryrun, h1, h2]
  · intro h1 h2 h3 h4
    simp [move_file_dryrun, h1, h2, h3, h4]

def fsC4 : FS :=
  ⟨[([], Node.dir), (["w"], Node.dir), (["w", "a.txt"], Node.file (some ['h'])),
    (["w", "Docs"], Node.dir)]⟩

/-- C4 witness: the dry-run behavior at concrete inputs. -/
theorem C4_dryrun_simulated_no_mutation_witness :
    (create_folder_dryrun ["w"] "a.txt" fsC4).2 = fsC4 ∧
    (move_file_dryrun ["w"] "a.txt" "Docs" fsC4).2 = fsC4 ∧
    (create_folder_dryrun ["w"] "a.txt" fsC4).1 =
      "[dry run] Folder '" ++ "a.txt" ++ "' would be created at " ++
        pathStr (pyJoin ["w"] "a.txt") ++ "." ∧
    (move_file_dryrun ["w"] "a.txt" "Docs" fsC4).1 =
      "[dry run] File '" ++ "a.txt" ++ "' would be moved to '" ++ "Docs" ++ "'." := by
  obtain ⟨a, b, c, d⟩ := C4_dryrun_simulated_no_mutation ["w"] "a.txt" "Docs" fsC4
  exact ⟨a, b, c (by decide) (by decide), d (by decide) (by decide) (by decide) (by decide)⟩

lemma head_E_not_excluded (x : String) (hx : x.data.head? = some 'E') :
    x ∉ EXCLUDED_FILES ∧ x ∉ EXCLUDED_FOLDERS := by
  constructor <;> intro hmem
  · simp only [EXCLUDED_FILES, List.mem_cons, List.not_mem_nil, or_false] at hmem
    rcases hmem with h | h | h | h <;> subst h <;> exact absurd hx (by decide)
  · simp only [EXCLUDED_FOLDERS, List.mem_cons, List.not_mem_nil, or_false] at hmem
    rcases hmem with h | h | h <;> subst h <;> exact absurd hx (by decide)

def fsC7 : FS :=
  ⟨[([], Node.dir), (["w"], Node.dir), (["w", "a.txt"], Node.file (some ['a'])),
    (["w", "venv"], Node.dir), (["w", "notes.md"], Node.file (some ['n']))]⟩

/-- C7: `get_file_list` never returns an entry whose name is in the
ExclusionSet (even its enumeration-failure message starts with `Error`
and is no excluded name), and on a root with children `a.txt`, `venv`,
`notes.md` it returns exactly `a.txt` and `notes.md`. -/
theorem C7_list_never_returns_excluded :
    (∀ (root : AbsPath) (fs : FS) (x : String), x ∈ get_file_list root fs →
      x ∉ EXCLUDED_FILES ∧ x ∉ EXCLUDED_FOLDERS) ∧
    get_file_list ["w"] fsC7 = ["a.txt", "notes.md"] := by
  constructor
  · intro root fs x hx
    unfold get_file_list at hx
    rcases hb : get_file_list_body root fs with e | l
    · rw [hb] at hx
      have hx' : x = "Error listing files: " ++ e.str := by simpa using hx
      subst hx'
      apply head_E_not_excluded
      have hgoal : ∀ t : String, (("Error listing files: " ++ t).data).head? = some 'E' := by
        intro t
        rcases t with ⟨l⟩
        rfl
      exact hgoal (PyErr.str e)
    · rw [hb] at hx
      unfold get_file_list_body at hb
      rcases hio : os_iterdir fs root with e2 | items
      · rw [hio] at hb
        exact absurd hb (by simp)
      · rw [hio] at hb
        simp only [Except.ok.injEq] at hb
        subst hb
        simp only [List.mem_filter, decide_eq_true_eq] at hx
        exact hx.2
  · decide

/-- C7 witness: the filtering property applied to a concrete returned
entry. -/
theorem C7_list_never_returns_excluded_witness :
    "a.txt" ∉ EXCLUDED_FILES ∧ "a.txt" ∉ EXCLUDED_FOLDERS :=
  C7_list_never_returns_excluded.1 ["w"] fsC7 "a.txt" (by decide)

def fsC6 : FS :=
  ⟨[([], Node.dir), (["w"], Node.dir), (["w", "a.txt"], Node.file (some ['h', 'i'])),
    (["w", "b.txt"], Node.file (some ['x']))]⟩

/-- C6 counterexample: when `destFolder` names an existing regular file —
so it does not exist as a direct child directory of root — `move_file`
does not return the DestMissing error the claim requires; the existence
check `dest_path.parent.exists()` passes and the failure surfaces as a
generic converted fault from `shutil.move`. -/
theorem C6_counterexample_dest_exists_as_file :
    fsC6.find ["w", "b.txt"] ≠ some Node.dir ∧
    (move_file ["w"] "a.txt" "b.txt" fsC6).1 ≠
      "Error: Destination folder 'b.txt' does not exist." ∧
    move_file ["w"] "a.txt" "b.txt" fsC6 =
      ("Error moving file 'a.txt': [Errno 20] Not a directory: '/w/b.txt'", fsC6) := by
  refine ⟨by decide, by decide, by decide⟩

/-- C6 amended: for an unprotected plain file name, `move_file` returns
NotFound when the source is missing, NotAFile when the source is not a
regular file, and DestMissing when the path `root/destFolder` does not
exist at all — each with the filesystem unchanged, so the destination is
never auto-created.  When `root/destFolder` exists as a non-directory the
operation instead fails with a generic converted fault. -/
theorem C6_move_file_error_cases (root : AbsPath) (name dest : String) (fs : FS)
    (hroot : resolvePath root = root) (hn : simpleName name) (hd : simpleName dest)
    (hprot : name ∉ EXCLUDED_FILES) :
    (fs.find (root ++ [name]) = none →
      move_file root name dest fs = ("Error: Source file '" ++ name ++ "' does not exist.", fs)) ∧
    (fs.find (root ++ [name]) = some Node.dir →
      move_file root name dest fs = ("Error: '" ++ name ++ "' is not a file.", fs)) ∧
    (∀ c, fs.find (root ++ [name]) = some (Node.file c) → fs.find (root ++ [dest]) = none →
      move_file root name dest fs =
        ("Error: Destination folder '" ++ dest ++ "' does not exist.", fs)) := by
  have e1 : pyJoin root name = root ++ [name] := pyJoin_simple root name hn
  have e2 : pyJoin root dest = root ++ [dest] := pyJoin_simple root dest hd
  have e3 : pyJoin (root ++ [dest]) name = root ++ [dest] ++ [name] := pyJoin_simple _ name hn
  have r1 : resolvePath (root ++ [name]) = root ++ [name] :=
    resolvePath_simple_append root name hroot hn
  have r2 : resolvePath (root ++ [dest]) = root ++ [dest] :=
    resolvePath_simple_append root dest hroot hd
  have d3 : (root ++ [dest] ++ [name]).dropLast = root ++ [dest] := by simp
  refine ⟨fun h => ?_, fun h => ?_, fun c h hdm => ?_⟩
  · simp [move_file, move_file_body, hprot, e1, e2, e3, path_exists, FS.lookup, r1, h]
  · simp [move_file, move_file_body, hprot, e1, e2, e3, path_exists, path_is_file,
      FS.lookup, r1, h]
  · simp [move_file, move_file_body, hprot, e1, e2, e3, path_exists, path_is_file,
      FS.lookup, r1, r2, d3, h, hdm]

def fsC6w : FS :=
  ⟨[([], Node.dir), (["w"], Node.dir), (["w", "a.txt"], Node.file (some ['h', 'i']))]⟩

/-- C6 witness: the DestMissing rejection at a concrete input whose
destination folder is absent. -/
theorem C6_move_file_error_cases_witness :
    move_file ["w"] "a.txt" "Missing" fsC6w =
      ("Error: Destination folder 'Missing' does not exist.", fsC6w) :=
  (C6_move_file_error_cases ["w"] "a.txt" "Missing" fsC6w (by decide) (by decide) (by decide)
    (by decide)).2.2 (some ['h', 'i']) rfl rfl

/-- Every directory on the way from `done` through the listed components
already exists. -/
def dirsAlong (fs : FS) : AbsPath → List String → Bool
  | _, [] => true
  | done, c :: rest =>
    (decide (fs.find (done ++ [c]) = some Node.dir)) && dirsAlong fs (done ++ [c]) rest

lemma makedirsAux_append (fs : FS) (l1 : List String) :
    ∀ (done : AbsPath) (l2 : List String), dirsAlong fs done l1 = true →
      makedirsAux fs done (l1 ++ l2) = makedirsAux fs (done ++ l1) l2 := by
  induction l1 with
  | nil => intro done l2 _; simp
  | cons c t ih =>
    intro done l2 h
    simp only [dirsAlong, Bool.and_eq_true, decide_eq_true_eq] at h
    have hstep : makedirsAux fs done (c :: (t ++ l2)) = makedirsAux fs (done ++ [c]) (t ++ l2) := by
      rw [makedirsAux]
      simp only [h.1]
    have hcons : (c :: t) ++ l2 = c :: (t ++ l2) := rfl
    rw [hcons, hstep, ih (done ++ [c]) l2 h.2, ← List.append_cons]

/-- C8: with a valid plain name, an intact chain of directories down to
the root and at most one node at the target, `create_folder` succeeds,
repeating it succeeds identically without further change, and exactly one
directory of that name exists afterwards. -/
theorem C8_create_folder_idempotent (root : AbsPath) (name : String) (fs : FS)
    (hroot : resolvePath root = root)
    (hn : simpleName name)
    (hv : pyStrip name ≠ "" ∧ strContains name ".." = false ∧ strContains name "/" = false ∧
      strContains name "\\" = false)
    (halong : dirsAlong fs [] root = true)
    (hstart : fs.find (root ++ [name]) = none ∨
      (fs.find (root ++ [name]) = some Node.dir ∧ keyCount fs.nodes (root ++ [name]) = 1)) :
    (create_folder root name fs).1 =
      "Folder '" ++ name ++ "' created successfully at " ++ pathStr (root ++ [name]) ∧
    (create_folder root name (create_folder root name fs).2).1 = (create_folder root name fs).1 ∧
    (create_folder root name (create_folder root name fs).2).2 = (create_folder root name fs).2 ∧
    (create_folder root name fs).2.find (root ++ [name]) = some Node.dir ∧
    keyCount (create_folder root name fs).2.nodes (root ++ [name]) = 1 := by
  have hcond1 : ¬(name = "" ∨ pyStrip name = "") := by
    rintro (h | h)
    · exact hv.1 (by rw [h]; rfl)
    · exact hv.1 h
  have hcond2 : (strContains name ".." || strContains name "/" || strContains name "\\") = false := by
    simp [hv.2.1, hv.2.2.1, hv.2.2.2]
  have e1 : pyJoin root name = root ++ [name] := pyJoin_simple root name hn
  have r1 : resolvePath (root ++ [name]) = root ++ [name] :=
    resolvePath_simple_append root name hroot hn
  rcases hstart with h0 | ⟨h0, hc⟩
  · have hmk : os_mkdir fs (root ++ [name]) = .ok (fs.set (root ++ [name]) Node.dir) := by
      unfold os_mkdir
      rw [r1, h0]
      rw [show root ++ [name] = root ++ [name] from rfl]
      have hsplit := makedirsAux_append fs root [] [name] (by simpa using halong)
      simp only [List.nil_append] at hsplit
      rw [hsplit]
      simp [makedirsAux, h0]
    have hfirst : create_folder root name fs =
        ("Folder '" ++ name ++ "' created successfully at " ++ pathStr (root ++ [name]),
          fs.set (root ++ [name]) Node.dir) := by
      simp [create_folder, create_folder_body, hcond1, hcond2, e1, hmk]
    have hmk2 : os_mkdir (fs.set (root ++ [name]) Node.dir) (root ++ [name]) =
        .ok (fs.set (root ++ [name]) Node.dir) := by
      unfold os_mkdir
      rw [r1, find_set_self]
    have hsecond : create_folder root name (fs.set (root ++ [name]) Node.dir) =
        ("Folder '" ++ name ++ "' created successfully at " ++ pathStr (root ++ [name]),
          fs.set (root ++ [name]) Node.dir) := by
      simp [create_folder, create_folder_body, hcond1, hcond2, e1, hmk2]
    rw [hfirst]
    refine ⟨rfl, ?_, ?_, find_set_self _ _ _, ?_⟩
    · rw [hsecond]
    · rw [hsecond]
    · simp [FS.set, keyCount, keyCount_aerase_self]
  · have hmk : os_mkdir fs (root ++ [name]) = .ok fs := by
      unfold os_mkdir
      rw [r1, h0]
    have hfirst : create_folder root name fs =
        ("Folder '" ++ name ++ "' created successfully at " ++ pathStr (root ++ [name]), fs) := by
      simp [create_folder, create_folder_body, hcond1, hcond2, e1, hmk]
    rw [hfirst]
    exact ⟨rfl, by rw [hfirst], by rw [hfirst], h0, hc⟩

def fsC8 : FS := ⟨[([], Node.dir), (["w"], Node.dir)]⟩

/-- C8 witness: creating `Docs` twice from a root with no such entry. -/
theorem C8_create_folder_idempotent_witness :
    (create_folder ["w"] "Docs" fsC8).1 =
      "Folder '" ++ "Docs" ++ "' created successfully at " ++ pathStr (["w"] ++ ["Docs"]) ∧
    (create_folder ["w"] "Docs" (create_folder ["w"] "Docs" fsC8).2).1 =
      (create_folder ["w"] "Docs" fsC8).1 ∧
    (create_folder ["w"] "Docs" (create_folder ["w"] "Docs" fsC8).2).2 =
      (create_folder ["w"] "Docs" fsC8).2 ∧
    (create_folder ["w"] "Docs" fsC8).2.find (["w"] ++ ["Docs"]) = some Node.dir ∧
    keyCount (create_folder ["w"] "Docs" fsC8).2.nodes (["w"] ++ ["Docs"]) = 1 :=
  C8_create_folder_idempotent ["w"] "Docs" fsC8 (by decide) (by decide)
    ⟨by decide, by decide, by decide, by decide⟩ (by decide) (Or.inl (by decide))

/-- C10: when an unprotected regular file is moved into an existing
destination directory that already holds a regular file of the same name,
`move_file` reports the ordinary success message — identical to the
no-collision case, with no hint of an overwrite — and the destination
file is silently replaced by the source file, the source entry vanishing. -/
theorem C10_move_silently_overwrites (root : AbsPath) (name dest : String) (fs : FS)
    (c cold : Option (List Char))
    (hroot : resolvePath root = root) (hn : simpleName name) (hd : simpleName dest)
    (hprot : name ∉ EXCLUDED_FILES)
    (hsrc : fs.find (root ++ [name]) = some (Node.file c))
    (hdest : fs.find (root ++ [dest]) = some Node.dir)
    (hold : fs.find (root ++ [dest, name]) = some (Node.file cold)) :
    move_file root name dest fs =
      ("File '" ++ name ++ "' moved to '" ++ dest ++ "' successfully.",
        (fs.erase (root ++ [name])).set (root ++ [dest, name]) (Node.file c)) ∧
    ((fs.erase (root ++ [name])).set (root ++ [dest, name]) (Node.file c)).find
      (root ++ [dest, name]) = some (Node.file c) ∧
    ((fs.erase (root ++ [name])).set (root ++ [dest, name]) (Node.file c)).find
      (root ++ [name]) = none := by
  have e1 : pyJoin root name = root ++ [name] := pyJoin_simple root name hn
  have e2 : pyJoin root dest = root ++ [dest] := pyJoin_simple root dest hd
  have e3 : pyJoin (root ++ [dest]) name = root ++ [dest] ++ [name] := pyJoin_simple _ name hn
  have r1 : resolvePath (root ++ [name]) = root ++ [name] :=
    resolvePath_simple_append root name hroot hn
  have r2 : resolvePath (root ++ [dest]) = root ++ [dest] :=
    resolvePath_simple_append root dest hroot hd
  have hassoc : root ++ [dest] ++ [name] = root ++ [dest, name] := by simp
  have r3 : resolvePath (root ++ [dest, name]) = root ++ [dest, name] := by
    have := resolvePath_simple_append (root ++ [dest]) name r2 hn
    rwa [hassoc] at this
  have d3 : (root ++ [dest] ++ [name]).dropLast = root ++ [dest] := by simp
  have dd3 : (root ++ [dest, name]).dropLast = root ++ [dest] := by
    rw [← hassoc]; simp
  have hmove : shutil_move fs (root ++ [name]) (root ++ [dest, name]) =
      .ok ((fs.erase (root ++ [name])).set (root ++ [dest, name]) (Node.file c)) := by
    simp [shutil_move, FS.lookup, r3, hold, os_rename, r1, hsrc, dd3, hdest]
  refine ⟨?_, find_set_self _ _ _, ?_⟩
  · simp [move_file, move_file_body, hprot, e1, e2, e3, path_exists, path_is_file,
      FS.lookup, r1, r2, r3, d3, hassoc, hsrc, hdest, hold, hmove]
  · have hne : root ++ [name] ≠ root ++ [dest, name] := by
      intro heq
      have hlen := congrArg List.length heq
      simp at hlen
    rw [find_set_ne _ _ _ _ hne]
    simp [FS.erase, FS.find, alookup_aerase_self]

def fsC10 : FS :=
  ⟨[([], Node.dir), (["w"], Node.dir), (["w", "a.txt"], Node.file (some ['n'])),
    (["w", "Docs"], Node.dir), (["w", "Docs", "a.txt"], Node.file (some ['o']))]⟩

/-- C10 witness: the silent overwrite at a concrete input. -/
theorem C10_move_silently_overwrites_witness :
    move_file ["w"] "a.txt" "Docs" fsC10 =
      ("File '" ++ "a.txt" ++ "' moved to '" ++ "Docs" ++ "' successfully.",
        (fsC10.erase (["w"] ++ ["a.txt"])).set (["w"] ++ ["Docs", "a.txt"])
          (Node.file (some ['n']))) ∧
    ((fsC10.erase (["w"] ++ ["a.txt"])).set (["w"] ++ ["Docs", "a.txt"])
      (Node.file (some ['n']))).find (["w"] ++ ["Docs", "a.txt"]) =
        some (Node.file (some ['n'])) ∧
    ((fsC10.erase (["w"] ++ ["a.txt"])).set (["w"] ++ ["Docs", "a.txt"])
      (Node.file (some ['n']))).find (["w"] ++ ["a.txt"]) = none :=
  C10_move_silently_overwrites ["w"] "a.txt" "Docs" fsC10 (some ['n']) (some ['o'])
    (by decide) (by decide) (by decide) (by decide) rfl rfl rfl
